import Mathlib

/-!
Verification of the CloudFormation template sanitizer
(`cfn_sanitizer/sanitizer.py`).

The Template Tree is embedded as the inductive type `Val`: mappings are
association lists in insertion order, sequences are lists, scalars are
strings, integers, booleans and null.  The Pattern Catalog
(`patterns.yaml`, external data supplied to the engine and not part of
the source tree) is embedded abstractly: a rule is a name together with
an optional content regex, modelled as a Boolean matcher on strings
(`re.search` semantics), and a list of trigger keys.  The sanitizer
logic is translated function-by-function from `sanitizer.py`; Python
exceptions raised on unexpected shapes are modelled with `Except`.
-/

inductive Val where
  | str (s : String)
  | int (n : Int)
  | bool (b : Bool)
  | null
  | list (xs : List Val)
  | dict (es : List (String × Val))
-- Node-count size of a tree; every scalar counts 1, so replacing a
-- scalar by another scalar preserves the size.  Used as the termination
-- measure of the tree rewriter.
mutual
def Val.size : Val → Nat
  | .list xs => 1 + sizeL xs
  | .dict es => 1 + sizeD es
  | _ => 1

def sizeL : List Val → Nat
  | [] => 0
  | v :: vs => 1 + Val.size v + sizeL vs

def sizeD : List (String × Val) → Nat
  | [] => 0
  | (_, v) :: es => 1 + Val.size v + sizeD es
end

theorem Val.size_pos : ∀ v : Val, 1 ≤ v.size := by
  intro v
  cases v <;> simp [Val.size]

/-- `d[k]` lookup on a Python dict (association list, first match). -/
def pyLookup (es : List (String × Val)) (k : String) : Option Val :=
  (es.find? (fun e => e.1 == k)).map (fun e => e.2)

/-- `d[k] = nv` on a Python dict: replace the value at key `k`, keeping
insertion order (template mappings have unique keys). -/
def updateD (es : List (String × Val)) (k : String) (nv : Val) : List (String × Val) :=
  es.map (fun e => if e.1 == k then (e.1, nv) else e)

/-- `d.get(k, dflt)`. -/
def pyDictGet (es : List (String × Val)) (k : String) (dflt : Val) : Val :=
  (pyLookup es k).getD dflt

/-- Python truthiness of a template value (used by `param_def.get('NoEcho', False)`). -/
def pyTruthy : Val → Bool
  | .str s => !(s == "")
  | .int n => !(n == 0)
  | .bool b => b
  | .null => false
  | .list xs => !xs.isEmpty
  | .dict es => !es.isEmpty

def isStrVal : Val → Bool
  | .str _ => true
  | _ => false

/-! ### Python string primitives

The Python code works on `str` values via substring tests (`in`),
`str.lower()`, `str.strip()` emptiness, and a handful of concrete
regular expressions.  These are embedded as executable functions on
`List Char` / `String`.  All vocabulary the code matches against is
ASCII, so the ASCII case mappings used below coincide with Python's
Unicode-aware `str.lower()` / `str.upper()` on every string the checks
can distinguish. -/

/-- `needle in hay` for Python strings (substring containment; the empty
needle is contained in everything, as in Python). -/
def subAt (t : List Char) : List Char → Bool
  | [] => t.isEmpty
  | c :: rest => t.isPrefixOf (c :: rest) || subAt t rest

def pyInStr (needle hay : String) : Bool :=
  subAt needle.toList hay.toList

/-- ASCII lower-casing of one character, as `str.lower()` acts on ASCII. -/
def pyLowerChar (c : Char) : Char :=
  if 65 ≤ c.toNat ∧ c.toNat ≤ 90 then
    Char.ofNat (c.toNat + 32)
  else c

def pyLower (s : String) : String :=
  String.mk (s.toList.map pyLowerChar)

/-- ASCII upper-casing, as `str.upper()` acts on the ASCII rule names. -/
def pyUpperChar (c : Char) : Char :=
  if 97 ≤ c.toNat ∧ c.toNat ≤ 122 then
    Char.ofNat (c.toNat - 32)
  else c

def pyUpper (s : String) : String :=
  String.mk (s.toList.map pyUpperChar)

/-- Characters stripped by `str.strip()` (ASCII whitespace). -/
def pyIsSpace (c : Char) : Bool :=
  c == ' ' || c == '\t' || c == '\n' || c == '\r' || c == '\x0b' || c == '\x0c'

/-- `not s.strip()`: true iff every character is whitespace (hence also
for the empty string). -/
def pyStripEmpty (s : String) : Bool :=
  s.toList.all pyIsSpace

/-- A regex word character (`\w`) for the ASCII names scanned here. -/
def isWordChar (c : Char) : Bool :=
  c.isAlphanum || c == '_'

/-- `re.search(r'\b' + term + r'\b', hay)` for a `term` made of word
characters: `term` occurs at a position whose neighbours (when present)
are non-word characters.  `prevOk` records whether the character before
the current suffix is a word boundary. -/
def wbFrom (t : List Char) (prevOk : Bool) : List Char → Bool
  | [] => prevOk && t.isEmpty
  | c :: rest =>
    (prevOk && t.isPrefixOf (c :: rest) &&
      (match (c :: rest).drop t.length with
       | [] => true
       | d :: _ => !isWordChar d)) ||
    wbFrom t (!isWordChar c) rest

def wordBoundSearch (term hay : String) : Bool :=
  wbFrom term.toList true hay.toList

/-! ### Pattern Catalog

`patterns.yaml` is package data loaded at module import; it is not part
of the source tree, so the catalog is kept abstract: a rule optionally
carries a content regex — embedded as a Boolean matcher with
`re.search` semantics — and a list of trigger keys (`keys`, defaulting
to the empty list exactly as `pattern_def.get('keys', [])` does). -/

structure PatternDef where
  regex : Option (String → Bool)
  keys : List String

abbrev Patterns := List (String × PatternDef)

/-- `'regex' in pattern_def and re.search(pattern_def['regex'], s)`. -/
def regexSearch (pd : PatternDef) (s : String) : Bool :=
  match pd.regex with
  | some r => r s
  | none => false

/-- One report entry appended to `self.report`. -/
structure Finding where
  path : String
  pattern : String
  original : String
deriving Repr, DecidableEq

/-! ### Module-level vocabulary (sanitizer.py lines 11-23, 55-56) -/

def STRING_SCAN_KEYS : List String := ["Description", "Name", "Value"]

def SENSITIVE_PARAM_NAMES : List String :=
  ["password", "secret", "key", "token", "apikey", "accesskey",
   "privatekey", "pwd", "credential", "auth", "passwd"]

def NON_SENSITIVE_PARAM_KEYWORDS : List String :=
  ["type", "instance", "size", "region", "az", "availability", "zone",
   "count", "number", "name", "env", "environment", "stage", "class"]

def STRONG_NON_SENSITIVE_TERMS : List String :=
  ["bucket", "domain", "path", "url", "endpoint", "address",
   "name", "file", "region", "zone", "id", "arn", "identifier"]

/-! ### Name heuristic (`_is_sensitive_parameter_name`, lines 46-76)

The Python sets are iterated only under `any`-style searches whose
result does not depend on iteration order, so lists are a faithful
model. -/

def is_sensitive_parameter_name (param_name : String) : Bool :=
  let param_lower := pyLower param_name
  if STRONG_NON_SENSITIVE_TERMS.any (fun t => pyInStr t param_lower) then
    false
  else if NON_SENSITIVE_PARAM_KEYWORDS.any (fun t => pyInStr t param_lower) then
    SENSITIVE_PARAM_NAMES.any (fun t => wordBoundSearch t param_lower)
  else
    SENSITIVE_PARAM_NAMES.any (fun t => pyInStr t param_lower)

/-! ### Value classifier (`_is_sensitive_value`, lines 78-104) -/

/-- Consume the longest non-empty run of characters satisfying `p`
(regex `p+`); the character classes that follow each run in the
instance-type regexes are disjoint from `p`, so greedy consumption is
exactly the regex semantics. -/
def dropLeading (p : Char → Bool) : List Char → List Char
  | [] => []
  | c :: rest => if p c then dropLeading p rest else c :: rest

def consume1Plus (p : Char → Bool) : List Char → Option (List Char)
  | [] => none
  | c :: rest => if p c then some (dropLeading p rest) else none

/-- The size-suffix alternation `(?:micro|small|medium|large|[0-9]?xl|metal)`
matched as a prefix of `rest` (the regex has no trailing anchor). -/
def sizeSuffix (rest : List Char) : Bool :=
  "micro".toList.isPrefixOf rest ||
  "small".toList.isPrefixOf rest ||
  "medium".toList.isPrefixOf rest ||
  "large".toList.isPrefixOf rest ||
  "xl".toList.isPrefixOf rest ||
  (match rest with
   | d :: rest2 => d.isDigit && "xl".toList.isPrefixOf rest2
   | [] => false) ||
  "metal".toList.isPrefixOf rest

/-- `re.match(r'^[a-z]+\d+\.(?:micro|small|medium|large|[0-9]?xl|metal)', s)`. -/
def instanceTypeMatch (l : List Char) : Bool :=
  match consume1Plus Char.isLower l with
  | none => false
  | some r1 =>
    match consume1Plus Char.isDigit r1 with
    | none => false
    | some r2 =>
      match r2 with
      | '.' :: r3 => sizeSuffix r3
      | _ => false

/-- `re.match(r'^db\.[a-z]+\d+\.(?:micro|small|medium|large|[0-9]?xl|metal)', s)`. -/
def dbInstanceTypeMatch (l : List Char) : Bool :=
  match l with
  | 'd' :: 'b' :: '.' :: rest => instanceTypeMatch rest
  | _ => false

def isPwSymbol (c : Char) : Bool :=
  "!@#$%^&*()".toList.contains c

/-- An occurrence of a `p`-character somewhere in the list. -/
def seq1 (p : Char → Bool) : List Char → Bool
  | [] => false
  | c :: rest => p c || seq1 p rest

/-- A `p`-character strictly before a `q`-character. -/
def seq2 (p q : Char → Bool) : List Char → Bool
  | [] => false
  | c :: rest => (p c && seq1 q rest) || seq2 p q rest

/-- A `p`-character, then a `q`-character, then an `r`-character, in order. -/
def seq3 (p q r : Char → Bool) : List Char → Bool
  | [] => false
  | c :: rest => (p c && seq2 q r rest) || seq3 p q r rest

/-- Split on newline characters; `.` in a Python regex never matches
`'\n'`, so a match of the password heuristic lies inside one segment. -/
def splitOnNl : List Char → List (List Char)
  | [] => [[]]
  | c :: rest =>
    if c == '\n' then [] :: splitOnNl rest
    else
      match splitOnNl rest with
      | seg :: segs => (c :: seg) :: segs
      | [] => [[c]]

/-- `re.search(r'[A-Z].*[0-9].*[!@#$%^&*()]|[0-9].*[A-Z].*[!@#$%^&*()]', s)`:
some newline-free segment contains upper-digit-symbol or
digit-upper-symbol in order. -/
def passwordHeuristic (s : String) : Bool :=
  (splitOnNl s.toList).any (fun seg =>
    seq3 Char.isUpper Char.isDigit isPwSymbol seg ||
    seq3 Char.isDigit Char.isUpper isPwSymbol seg)

/-- `_is_sensitive_value` on a value already known to be a string. -/
def is_sensitive_value_str (ps : Patterns) (s : String) : Bool :=
  if s.length < 8 then false
  else if instanceTypeMatch s.toList || dbInstanceTypeMatch s.toList then false
  else if ps.any (fun p => regexSearch p.2 s) then true
  else passwordHeuristic s

/-- `_is_sensitive_value(value)`: non-strings are never sensitive. -/
def is_sensitive_value (ps : Patterns) (v : Val) : Bool :=
  match v with
  | .str s => is_sensitive_value_str ps s
  | _ => false

/-! ### `str()` rendering of nested constructs

The two `Fn::Sub` branches of `_sanitize_property` report
`str(content)` truncated to 100 characters.  `pyRepr` renders a value
the way Python's `str`/`repr` renders the corresponding object (`repr`
is used for elements nested inside a dict or list).  String escaping
covers the backslash, both quotes and the common control characters,
which is exhaustive for the template strings exercised here. -/

def pyReprCharEsc (q : Char) (c : Char) : List Char :=
  if c == '\\' then ['\\', '\\']
  else if c == q then ['\\', q]
  else if c == '\n' then ['\\', 'n']
  else if c == '\r' then ['\\', 'r']
  else if c == '\t' then ['\\', 't']
  else [c]

/-- Python `repr` of a string: single quotes, unless the string
contains a single quote and no double quote. -/
def pyReprStr (s : String) : String :=
  let l := s.toList
  let q : Char := if l.contains '\x27' && !l.contains '"' then '"' else '\x27'
  String.mk (q :: (l.flatMap (pyReprCharEsc q)) ++ [q])

mutual
def pyRepr : Val → String
  | .str s => pyReprStr s
  | .int n => toString n
  | .bool b => if b then "True" else "False"
  | .null => "None"
  | .list xs => "[" ++ pyReprL xs ++ "]"
  | .dict es => "\x7b" ++ pyReprD es ++ "\x7d"

def pyReprL : List Val → String
  | [] => ""
  | [v] => pyRepr v
  | v :: rest => pyRepr v ++ ", " ++ pyReprL rest

def pyReprD : List (String × Val) → String
  | [] => ""
  | [(k, v)] => pyReprStr k ++ ": " ++ pyRepr v
  | (k, v) :: rest => pyReprStr k ++ ": " ++ pyRepr v ++ ", " ++ pyReprD rest
end

/-- Python `str(x)`: a top-level string is rendered verbatim, anything
else as its `repr`. -/
def pyStr : Val → String
  | .str s => s
  | v => pyRepr v

/-- `str(x)[:100] + "..." if len(str(x)) > 100 else str(x)`. -/
def truncated (t : String) : String :=
  if t.length > 100 then t.take 100 ++ "..." else t

/-! ### Parameter pre-scan (`__init__` lines 39-41 and
`_pre_scan_parameters` lines 106-130)

Shapes on which the Python raises (`.keys()` / `.items()` / `.get` on a
non-dict, `in` on a non-container) are modelled with `Except.error`. -/

/-- `set(template['Parameters'].keys())` guarded by
`'Parameters' in template` (lines 39-41).  A non-dict template makes
`in` fall back to substring / element membership (raising `TypeError`
on scalars), and a non-dict `Parameters` value has no `.keys()`. -/
def parameter_names_of (template : Val) : Except String (List String) :=
  match template with
  | .dict es =>
    match pyLookup es "Parameters" with
    | none => .ok []
    | some (.dict pes) => .ok (pes.map (fun e => e.1))
    | some _ => .error "AttributeError: object has no attribute keys"
  | .str s =>
    if pyInStr "Parameters" s then .error "TypeError: string indices must be integers"
    else .ok []
  | .list xs =>
    if xs.any (fun x => match x with | .str s => s == "Parameters" | _ => false) then
      .error "TypeError: list indices must be integers"
    else .ok []
  | _ => .error "TypeError: argument is not iterable"

/-- The per-parameter body of `_pre_scan_parameters` (lines 115-130),
folded over the declared parameters; `acc` is the growing
`self.sensitive_params` set (insertion order kept, membership only is
used downstream). -/
def pre_scan_entries (ps : Patterns) : List (String × Val) → List String →
    Except String (List String)
  | [], acc => .ok acc
  | (param_name, param_def) :: rest, acc =>
    match param_def with
    | .dict pd =>
      if pyTruthy (pyDictGet pd "NoEcho" (.bool false)) then
        pre_scan_entries ps rest (acc ++ [param_name])
      else if is_sensitive_parameter_name param_name then
        pre_scan_entries ps rest (acc ++ [param_name])
      else
        match pyLookup pd "Default" with
        | some (.str s) =>
          if is_sensitive_value_str ps s then
            pre_scan_entries ps rest (acc ++ [param_name])
          else
            pre_scan_entries ps rest acc
        | _ => pre_scan_entries ps rest acc
    | _ => .error "AttributeError: object has no attribute get"

/-- `_pre_scan_parameters` (lines 106-130). -/
def pre_scan_parameters (ps : Patterns) (template : Val) :
    Except String (List String) :=
  match template with
  | .dict es =>
    match pyLookup es "Parameters" with
    | none => .ok []
    | some (.dict pes) => pre_scan_entries ps pes []
    | some _ => .error "AttributeError: object has no attribute items"
  | .str s =>
    if pyInStr "Parameters" s then .error "TypeError: string indices must be integers"
    else .ok []
  | .list xs =>
    if xs.any (fun x => match x with | .str s => s == "Parameters" | _ => false) then
      .error "TypeError: list indices must be integers"
    else .ok []
  | _ => .error "TypeError: argument is not iterable"

/-! ### Parameter default rule (`_sanitize_parameter_default`, lines 132-182)

The function returns the value object unchanged on every pass-through
path; a replacement is always a fresh string.  The caller does not
compare identities here, so the result is a plain pair
(new value as `Option`, appended findings); `none` means the original
object was returned. -/

/-- First catalog rule whose content regex matches `s` (the
`for pattern_name, pattern_def in PATTERNS.items()` scan). -/
def firstRegexMatch (ps : Patterns) (s : String) : Option String :=
  (ps.find? (fun p => regexSearch p.2 s)).map (fun p => p.1)

def sanitize_parameter_default (ps : Patterns) (sens : List String)
    (param_name : String) (default_value : Val) (path : String) :
    Option Val × List Finding :=
  match default_value with
  | .str s =>
    if pyStripEmpty s then (none, [])
    else if !sens.contains param_name && !is_sensitive_value_str ps s then
      (none, [])
    else
      match firstRegexMatch ps s with
      | some pattern_name =>
        (some (.str ("SANITIZED-" ++ pyUpper pattern_name ++ "-VALUE")),
         [⟨path, pattern_name, s⟩])
      | none =>
        if sens.contains param_name then
          (some (.str "SANITIZED-PARAMETER-VALUE"),
           [⟨path, "parameter_defaults", s⟩])
        else (none, [])
  | _ => (none, [])

/-! ### Property rule (`_sanitize_property`, lines 184-319)

The caller (line 348) tests `sanitized_val is not val`, i.e. object
identity.  Every early `return value` hands back the argument object;
every redaction builds a fresh object (in particular, `re.sub` with at
least one match allocates a new string even when its content is
unchanged).  The result is therefore modelled as `Option Val`:
`none` for the identical object, `some` for a fresh one. -/

/-- `{{resolve:secretsmanager:<pattern>:SecretString:<key>}}`. -/
def placeholderFor (pattern_name k : String) : String :=
  "\x7b\x7bresolve:secretsmanager:" ++ pattern_name ++ ":SecretString:" ++ k ++ "\x7d\x7d"

/-- `re.match(r'^[A-Za-z0-9-]+$', s)`: a non-empty run of
alphanumeric/hyphen characters; Python's `$` also accepts one trailing
newline after the run. -/
def simpleTokenChar (c : Char) : Bool :=
  c.isAlpha || c.isDigit || c == '-'

def simpleToken (s : String) : Bool :=
  let l := s.toList
  let core := match l.reverse with
    | '\n' :: r => r.reverse
    | _ => l
  !core.isEmpty && core.all simpleTokenChar

/-- The `for pattern_name, pattern_def in PATTERNS.items()` loop of the
string branch (lines 206-250).  Within one rule the three checks run in
order: key trigger (lines 210-223), content regex on scanned keys
(lines 226-234), and the `general_credentials` special case
(lines 237-250).  In the last one the replacement template is
`r'\g<0>'.replace(r'\1', "SANITIZED-CREDENTIAL")`; `r'\g<0>'` contains
no `r'\1'`, so the `replace` is a no-op and `re.sub` substitutes every
match with the whole match itself: the fresh string equals `value`. -/
def sanPropStrLoop (allPs : Patterns) (k s path : String) :
    Patterns → Option Val × List Finding
  | [] => (none, [])
  | (pattern_name, pattern_def) :: rest =>
    if pattern_def.keys.contains k then
      if k == "Value" && !is_sensitive_value_str allPs s && simpleToken s then
        (none, [])
      else
        (some (.str (placeholderFor pattern_name k)), [⟨path, pattern_name, s⟩])
    else if pattern_def.regex.isSome && STRING_SCAN_KEYS.contains k &&
        regexSearch pattern_def s then
      (some (.str (placeholderFor pattern_name k)), [⟨path, pattern_name, s⟩])
    else if pattern_name == "general_credentials" && pattern_def.regex.isSome &&
        (k == "Description" || k == "Name") && regexSearch pattern_def s then
      (some (.str s), [⟨path, pattern_name, s⟩])
    else
      sanPropStrLoop allPs k s path rest

/-- Per-element redaction of a `Passwords` list (lines 298-317); the
guard has already checked that every element is a string. -/
def sanPasswordsList (ps : Patterns) (path : String) :
    List Val → Nat → List Val × List Finding
  | [], _ => ([], [])
  | v :: rest, idx =>
    let (rest2, fs2) := sanPasswordsList ps path rest (idx + 1)
    match v with
    | .str item =>
      let item_pattern_name :=
        match (ps.find? (fun p => regexSearch p.2 item)).map (fun p => p.1) with
        | some pn => pn
        | none => "generic_secret"
      let ph := "SANITIZED-" ++ pyUpper item_pattern_name ++ "-VALUE-" ++ toString idx
      (.str ph :: rest2,
       ⟨path ++ "[" ++ toString idx ++ "]", item_pattern_name, item⟩ :: fs2)
    | other => (other :: rest2, fs2)

def sanitize_property (ps : Patterns) (k : String) (v : Val)
    (path _sect : String) : Option Val × List Finding :=
  match v with
  | .str s =>
    if k == "Value" && pyInStr "Tags" path && simpleToken s &&
        !is_sensitive_value_str ps s then
      (none, [])
    else
      sanPropStrLoop ps k s path ps
  | .dict d =>
    if k == "UserData" && (pyLookup d "Fn::Base64").isSome then
      match pyLookup d "Fn::Base64" with
      | some (.str base64_content) =>
        match ps.find? (fun p => p.2.keys.contains "UserData") with
        | some (pattern_name, _) =>
          (some (.dict [("Fn::Base64", .str (placeholderFor pattern_name k))]),
           [⟨path, pattern_name, base64_content⟩])
        | none => (none, [])
      | some (.dict inner) =>
        if (pyLookup inner "Fn::Sub").isSome then
          (some (.dict [("Fn::Base64", .str (placeholderFor "generic_secret" k))]),
           [⟨path, "generic_secret", truncated (pyStr (.dict inner))⟩])
        else (none, [])
      | _ => (none, [])
    else if k == "UserData" && (pyLookup d "Fn::Sub").isSome then
      match pyLookup d "Fn::Sub" with
      | some sub_content =>
        (some (.dict [("Fn::Sub", .str (placeholderFor "generic_secret" k))]),
         [⟨path, "generic_secret", truncated (pyStr sub_content)⟩])
      | none => (none, [])
    else (none, [])
  | .list xs =>
    if xs.all isStrVal then
      if k == "Passwords" then
        let (xs2, fs) := sanPasswordsList ps path xs 0
        (some (.list xs2), fs)
      else (none, [])
    else (none, [])
  | _ => (none, [])

/-! ### LoginProfile special case (`_sanitize_node` lines 353-365)

The assignment `val['Password'] = placeholder` happens before the
report entry is built from `val['Password']`, so the Finding's
`original` field holds the placeholder, not the replaced secret. -/

def login_profile_step (ps : Patterns) (k : String) (v : Val) (loc : String) :
    Val × List Finding :=
  match v with
  | .dict d =>
    if k == "LoginProfile" then
      match pyLookup d "Password" with
      | some (.str _) =>
        match ps.find? (fun p => p.2.keys.contains "Password") with
        | some (pattern_name, _) =>
          let ph := placeholderFor pattern_name "Password"
          (.dict (updateD d "Password" (.str ph)),
           [⟨loc ++ ".Password", pattern_name, ph⟩])
        | none => (v, [])
      | _ => (v, [])
    else (v, [])
  | _ => (v, [])

/-! ### Tree rewriter (`_sanitize_node`, lines 321-380, and `sanitize`,
lines 382-395)

Iteration runs over a snapshot of the items (`list(node.items())`);
each entry's processing touches only its own value, and findings are
appended in iteration order, so the walk is a left-to-right map over
the entries threading the findings list.  After the LoginProfile block
the recursion descends into the updated child object, which is why the
recursion is on a value of equal (not smaller) size: the termination
measure counts every scalar as 1, so the string-for-string update
below preserves it. -/

theorem sizeD_updateD_str (d : List (String × Val)) (k ph : String) :
    sizeD (updateD d k (.str ph)) ≤ sizeD d := by
  induction d with
  | nil => simp [updateD, sizeD]
  | cons e rest ih =>
    obtain ⟨ek, ev⟩ := e
    have hev := Val.size_pos ev
    simp only [updateD, List.map_cons] at *
    by_cases h : (ek == k) = true
    · rw [if_pos h]
      simp only [sizeD, Val.size]
      omega
    · rw [if_neg h]
      simp only [sizeD]
      omega

theorem login_profile_step_size_le (ps : Patterns) (k : String) (v : Val)
    (loc : String) : Val.size (login_profile_step ps k v loc).1 ≤ Val.size v := by
  cases v
  case dict es =>
    simp only [login_profile_step]
    split
    · split
      · split
        · simp only [Val.size]
          exact Nat.add_le_add_left (sizeD_updateD_str es "Password" _) 1
        · simp
      · simp
    · simp
  all_goals simp [login_profile_step]

/-- `section = path.split('.')[0] if '.' in path else path` guarded by
`if not section and path` (lines 335-336). -/
def inferSection (sect path : String) : String :=
  if sect == "" && !(path == "") then
    if pyInStr "." path then (path.splitOn ".").headD "" else path
  else sect

mutual
/-- `_sanitize_node` (lines 321-380). -/
def sanitize_node (ps : Patterns) (sens pnames : List String) (node : Val)
    (path parent sect : String) : Val × List Finding :=
  let sect2 := inferSection sect path
  match node with
  | .dict es =>
    let r := sanEntries ps sens pnames es path parent sect2
    (.dict r.1, r.2)
  | .list xs =>
    let r := sanItems ps sens pnames xs path parent sect2 0
    (.list r.1, r.2)
  | other => (other, [])
termination_by 3 * Val.size node
decreasing_by
  all_goals simp only [Val.size, sizeD, sizeL]
  all_goals omega

/-- The `for key, val in list(node.items())` loop (lines 339-373). -/
def sanEntries (ps : Patterns) (sens pnames : List String)
    (es : List (String × Val)) (path parent sect : String) :
    List (String × Val) × List Finding :=
  match es with
  | [] => ([], [])
  | (k, v) :: rest =>
    let loc := if path == "" then k else path ++ "." ++ k
    let r1 := sanEntryValue ps sens pnames k v loc parent sect
    let r2 := sanEntries ps sens pnames rest path parent sect
    ((k, r1.1) :: r2.1, r1.2 ++ r2.2)
termination_by 3 * sizeD es + 2
decreasing_by
  all_goals simp only [Val.size, sizeD, sizeL]
  all_goals omega

/-- One loop body iteration: section dispatch (lines 343-350), the
LoginProfile block (lines 353-365) and the recursion into nested
structures (lines 368-373).  In the Parameters branch the in-place
assignment `node[key] = ...` replaces the entry before the recursion,
which still visits the original `val` object; a replacement happens
only for string defaults, which the recursion would not descend into,
and the LoginProfile block needs `key == 'LoginProfile'` while this
branch needs `key == 'Default'`, so skipping both after a replacement
is exactly the Python behaviour. -/
def sanEntryValue (ps : Patterns) (sens pnames : List String) (k : String)
    (v : Val) (loc parent sect : String) : Val × List Finding :=
  if sect == "Parameters" && k == "Default" && pnames.contains parent then
    match sanitize_parameter_default ps sens parent v loc with
    | (some nv, fs) => (nv, fs)
    | (none, fs) =>
      let lp := login_profile_step ps k v loc
      let r := sanDescend ps sens pnames k lp.1 loc sect
      (r.1, fs ++ lp.2 ++ r.2)
  else if sect == "Resources" then
    match sanitize_property ps k v loc sect with
    | (some nv, fs) => (nv, fs)
    | (none, fs) =>
      let lp := login_profile_step ps k v loc
      let r := sanDescend ps sens pnames k lp.1 loc sect
      (r.1, fs ++ lp.2 ++ r.2)
  else
    let lp := login_profile_step ps k v loc
    let r := sanDescend ps sens pnames k lp.1 loc sect
    (r.1, lp.2 ++ r.2)
termination_by 3 * Val.size v + 2
decreasing_by
  all_goals have hlp := login_profile_step_size_le ps k v loc
  all_goals omega

/-- The recursion of lines 368-373: descend into a dict value, or into
the dict/list elements of a list value (scalar elements are left in
place), with `parent := key`. -/
def sanDescend (ps : Patterns) (sens pnames : List String) (k : String)
    (v : Val) (loc sect : String) : Val × List Finding :=
  match v with
  | .dict es => sanitize_node ps sens pnames (.dict es) loc k sect
  | .list xs =>
    let r := sanItems ps sens pnames xs loc k sect 0
    (.list r.1, r.2)
  | other => (other, [])
termination_by 3 * Val.size v + 1
decreasing_by
  all_goals simp only [Val.size, sizeD, sizeL]
  all_goals omega

/-- Per-index iteration over a list node (lines 371-373 and 375-378):
only dict or list items are visited, the path gains a bracketed index
suffix. -/
def sanItems (ps : Patterns) (sens pnames : List String) (xs : List Val)
    (path parentK sect : String) (idx : Nat) : List Val × List Finding :=
  match xs with
  | [] => ([], [])
  | x :: rest =>
    let r1 :=
      match x with
      | .dict es =>
        sanitize_node ps sens pnames (.dict es)
          (path ++ "[" ++ toString idx ++ "]") parentK sect
      | .list ys =>
        sanitize_node ps sens pnames (.list ys)
          (path ++ "[" ++ toString idx ++ "]") parentK sect
      | other => (other, [])
    let r2 := sanItems ps sens pnames rest path parentK sect (idx + 1)
    (r1.1 :: r2.1, r1.2 ++ r2.2)
termination_by 3 * sizeL xs + 2
decreasing_by
  all_goals simp only [Val.size, sizeD, sizeL]
  all_goals omega
end

/-- `sanitize` (lines 382-395) composed with the construction of
`CloudFormationSanitizer` (lines 28-44): extract the declared parameter
names, pre-scan for sensitive parameters, then rewrite the whole tree
starting from the empty path/parent/section. -/
def sanitize_template (ps : Patterns) (template : Val) :
    Except String (Val × List Finding) :=
  match parameter_names_of template with
  | .error e => .error e
  | .ok pnames =>
    match pre_scan_parameters ps template with
    | .error e => .error e
    | .ok sens => .ok (sanitize_node ps sens pnames template "" "" "")


/-- The input shapes under which the constructor and the pre-scan raise
no exception: a mapping template whose `Parameters` entry, when
present, is a mapping all of whose values are mappings. -/
def paramsWellShaped (t : Val) : Bool :=
  match t with
  | .dict es =>
    match pyLookup es "Parameters" with
    | none => true
    | some (.dict pes) => pes.all (fun e => match e.2 with | .dict _ => true | _ => false)
    | some _ => false
  | _ => false

/-! ### Concrete instances used by the claim-level theorems

`patterns.yaml` is not part of the source tree, so each instance below
is a minimal catalog modelled from the spec (a rule with the trigger
key or content regex the scenario needs); regexes are literal-substring
or literal-equality matchers. -/

def loginPatterns : Patterns := [("iam_login", ⟨none, ["Password"]⟩)]

def loginTemplate : Val :=
  .dict [("Resources", .dict [("R", .dict [("LoginProfile",
    .dict [("Password", .str "hunter2secret1")])])])]

def loginPlaceholder : String :=
  "\x7b\x7bresolve:secretsmanager:iam_login:SecretString:Password\x7d\x7d"

def gcPatterns : Patterns :=
  [("general_credentials", ⟨some (fun s => pyInStr "password=" s), []⟩)]

def pwPatterns : Patterns := [("pw_rule", ⟨some (fun s => s == "topsecret1"), []⟩)]

def pwTemplate : Val :=
  .dict [("Resources", .dict [("R", .dict [("Passwords", .list [.str "topsecret1"])])])]

def pwTemplate1 : Val :=
  .dict [("Resources", .dict [("R", .dict [("Passwords",
    .list [.str "SANITIZED-PW_RULE-VALUE-0"])])])]

def pwTemplate2 : Val :=
  .dict [("Resources", .dict [("R", .dict [("Passwords",
    .list [.str "SANITIZED-GENERIC_SECRET-VALUE-0"])])])]

def qTemplate : Val :=
  .dict [("Parameters", .dict [("Q", .dict [("NoEcho", .bool true),
    ("Default", .str "SANITIZED-PARAMETER-VALUE")])])]

def pwKeyPatterns : Patterns := [("pw", ⟨none, ["Password"]⟩)]

def pwKeyTemplate : Val :=
  .dict [("Resources", .dict [("R", .dict [("Password", .str "hunter2hunter2")])])]

def pwKeyTemplateOut : Val :=
  .dict [("Resources", .dict [("R", .dict [("Password",
    .str "\x7b\x7bresolve:secretsmanager:pw:SecretString:Password\x7d\x7d")])])]

/-! ### Runs that record no Findings leave the tree unchanged

Every path of the rewriter that installs a fresh value either appends a
Finding or (in the two no-Finding corner cases: an empty `Passwords`
list rebuilt as a new empty list, and the identity `re.sub` of the dead
`general_credentials` branch) installs a value equal to the one it
replaces.  Hence a run whose report is empty returns the input tree. -/

theorem sanitize_parameter_default_no_finding (ps : Patterns) (sens : List String)
    (param_name : String) (v : Val) (path : String)
    (h : (sanitize_parameter_default ps sens param_name v path).2 = []) :
    (sanitize_parameter_default ps sens param_name v path).1 = none := by
  cases v <;> simp_all [sanitize_parameter_default]
  case str s =>
    split at h
    next => simp_all
    next =>
      split at h
      next => simp_all
      next =>
        split at h
        next => simp_all
        next =>
          split at h
          next => simp_all
          next => simp_all

theorem login_profile_step_no_finding (ps : Patterns) (k : String) (v : Val)
    (loc : String) (h : (login_profile_step ps k v loc).2 = []) :
    (login_profile_step ps k v loc).1 = v := by
  cases v <;> simp_all [login_profile_step]
  case dict es =>
    split at h
    next =>
      split at h
      next => split at h <;> simp_all
      next => simp_all
    next => simp_all

theorem sanPropStrLoop_no_finding (allPs : Patterns) (k s path : String) :
    ∀ qs : Patterns, (sanPropStrLoop allPs k s path qs).2 = [] →
    (sanPropStrLoop allPs k s path qs).1 = none := by
  intro qs
  induction qs with
  | nil => simp [sanPropStrLoop]
  | cons q rest ih =>
    obtain ⟨pattern_name, pattern_def⟩ := q
    simp only [sanPropStrLoop]
    split
    next => split <;> simp
    next =>
      split
      next => simp
      next =>
        split
        next => simp
        next => exact ih

theorem sanPasswordsList_no_finding (ps : Patterns) (path : String) :
    ∀ (xs : List Val) (idx : Nat), (sanPasswordsList ps path xs idx).2 = [] →
    (sanPasswordsList ps path xs idx).1 = xs := by
  intro xs
  induction xs with
  | nil => simp [sanPasswordsList]
  | cons x rest ih =>
    intro idx
    simp only [sanPasswordsList]
    split
    next => simp
    next =>
      intro h
      simp only [Prod.snd] at h
      have h2 := ih (idx + 1) (by simp_all)
      simp_all

theorem sanitize_property_no_finding (ps : Patterns) (k : String) (v : Val)
    (path sect : String) (h : (sanitize_property ps k v path sect).2 = []) :
    (sanitize_property ps k v path sect).1 = none ∨
    (sanitize_property ps k v path sect).1 = some v := by
  cases v
  case str s =>
    simp only [sanitize_property] at *
    split at h
    next => simp_all
    next =>
      split
      next => simp
      next => exact Or.inl (sanPropStrLoop_no_finding ps k s path ps h)
  case dict d =>
    simp only [sanitize_property] at *
    split at h
    next =>
      split at h
      next =>
        split at h
        next => simp_all
        next => simp_all
      next =>
        split at h
        next => simp_all
        next => simp_all
      next => simp_all
    next =>
      split at h
      next =>
        split at h
        next => simp_all
        next => simp_all
      next => simp_all
  case list xs =>
    simp only [sanitize_property] at *
    split at h
    next hall =>
      rw [if_pos hall] at *
      split at h
      next hk =>
        rw [if_pos hk] at *
        right
        have h2 := sanPasswordsList_no_finding ps path xs 0 h
        simp_all
      next hk => simp_all
    next hall =>
      rw [if_neg hall]
      simp
  all_goals simp_all [sanitize_property]


theorem sanitize_node_no_findings (ps : Patterns) (sens pnames : List String) :
    ∀ (node : Val) (path parent sect : String),
      (sanitize_node ps sens pnames node path parent sect).2 = [] →
      (sanitize_node ps sens pnames node path parent sect).1 = node := by
  apply sanitize_node.induct ps sens pnames
    (fun node path parent sect =>
      (sanitize_node ps sens pnames node path parent sect).2 = [] →
      (sanitize_node ps sens pnames node path parent sect).1 = node)
    (fun xs path parentK sect idx =>
      (sanItems ps sens pnames xs path parentK sect idx).2 = [] →
      (sanItems ps sens pnames xs path parentK sect idx).1 = xs)
    (fun es path parent sect =>
      (sanEntries ps sens pnames es path parent sect).2 = [] →
      (sanEntries ps sens pnames es path parent sect).1 = es)
    (fun k v loc parent sect =>
      (sanEntryValue ps sens pnames k v loc parent sect).2 = [] →
      (sanEntryValue ps sens pnames k v loc parent sect).1 = v)
    (fun k v loc sect =>
      (sanDescend ps sens pnames k v loc sect).2 = [] →
      (sanDescend ps sens pnames k v loc sect).1 = v)
  · -- 1: dict node
    intro path parent sect sect2 es ih
    simp only [sanitize_node]
    intro h
    exact congrArg Val.dict (ih h)
  · -- 2: list node
    intro path parent sect sect2 xs ih
    simp only [sanitize_node]
    intro h
    exact congrArg Val.list (ih h)
  · -- 3: other node
    intro path parent sect other hnd hnl
    cases other <;> simp [sanitize_node]
    case dict es => exact absurd rfl (fun hh => hnd es hh)
    case list xs => exact absurd rfl (fun hh => hnl xs hh)
  · -- 4: items nil
    intro path parentK sect idx
    simp [sanItems]
  · -- 5: items cons
    intro path parentK sect idx v vs ihv ihvs
    rw [sanItems.eq_def]
    simp only []
    intro h
    rw [List.append_eq_nil] at h
    obtain ⟨h1, h2⟩ := h
    have hrest := ihvs h2
    cases v
    case dict es =>
      simp only [] at ihv h1 ⊢
      rw [ihv h1, hrest]
    case list ys =>
      simp only [] at ihv h1 ⊢
      rw [ihv h1, hrest]
    all_goals simp_all
  · -- 6: entries nil
    intro path parent sect
    simp [sanEntries]
  · -- 7: entries cons
    intro path parent sect k v es loc ih4 ih3
    rw [sanEntries.eq_def]
    simp only []
    intro h
    rw [List.append_eq_nil] at h
    obtain ⟨h1, h2⟩ := h
    have e1 : (sanEntryValue ps sens pnames k v
        (if (path == "") = true then k else path ++ "." ++ k) parent sect).1 = v := ih4 h1
    rw [e1, ih3 h2]
  · -- 8: parameters, default replaced
    intro k v loc parent sect hcond nv fs heq
    simp only [sanEntryValue]
    rw [if_pos hcond, heq]
    intro h
    simp only [] at h
    have := sanitize_parameter_default_no_finding ps sens parent v loc (by rw [heq]; exact h)
    rw [heq] at this
    simp at this
  · -- 9: parameters, default unchanged
    intro k v loc parent sect hcond fs heq lp ih5
    simp only [sanEntryValue]
    rw [if_pos hcond, heq]
    intro h
    simp only [] at h ⊢
    rw [List.append_eq_nil, List.append_eq_nil] at h
    obtain ⟨⟨hfs, hlp⟩, hr⟩ := h
    have hv2 := login_profile_step_no_finding ps k v loc hlp
    rw [ih5 hr, hv2]
  · -- 10: resources, property replaced
    intro k v loc parent sect hcond hres nv fs heq
    simp only [sanEntryValue]
    rw [if_neg hcond, if_pos hres, heq]
    intro h
    simp only [] at h ⊢
    rcases sanitize_property_no_finding ps k v loc sect (by rw [heq]; exact h) with hn | hs
    · rw [heq] at hn
      simp at hn
    · rw [heq] at hs
      simp at hs
      exact hs
  · -- 11: resources, property unchanged
    intro k v loc parent sect hcond hres fs heq lp ih5
    simp only [sanEntryValue]
    rw [if_neg hcond, if_pos hres, heq]
    intro h
    simp only [] at h ⊢
    rw [List.append_eq_nil, List.append_eq_nil] at h
    obtain ⟨⟨hfs, hlp⟩, hr⟩ := h
    have hv2 := login_profile_step_no_finding ps k v loc hlp
    rw [ih5 hr, hv2]
  · -- 12: other section
    intro k v loc parent sect hcond hres lp ih5
    simp only [sanEntryValue]
    rw [if_neg hcond, if_neg hres]
    intro h
    simp only [] at h ⊢
    rw [List.append_eq_nil] at h
    obtain ⟨hlp, hr⟩ := h
    have hv2 := login_profile_step_no_finding ps k v loc hlp
    rw [ih5 hr, hv2]
  · -- 13: descend dict
    intro k loc sect es ih
    simp only [sanDescend]
    exact ih
  · -- 14: descend list
    intro k loc sect xs ih
    simp only [sanDescend]
    intro h
    exact congrArg Val.list (ih h)
  · -- 15: descend other
    intro k loc sect other hnd hnl
    cases other <;> simp [sanDescend]
    case dict es => exact absurd rfl (fun hh => hnd es hh)
    case list xs => exact absurd rfl (fun hh => hnl xs hh)

theorem sanitize_template_no_findings (ps : Patterns) (t : Val)
    (r : Val × List Finding) (h : sanitize_template ps t = .ok r)
    (hf : r.2 = []) : r.1 = t := by
  unfold sanitize_template at h
  split at h
  next => simp_all
  next pnames hok =>
    split at h
    next => simp_all
    next sens hok2 =>
      injection h with h2
      rw [← h2] at hf ⊢
      exact sanitize_node_no_findings ps sens pnames t "" "" "" hf

/-! ### Case-mapping facts for the name heuristic -/

theorem charOfNat_toNat_small (n : Nat) (h1 : 97 ≤ n) (h2 : n ≤ 122) :
    (Char.ofNat n).toNat = n := by
  unfold Char.ofNat
  rw [dif_pos]
  · simp [Char.ofNatAux, Char.toNat, UInt32.toNat, BitVec.toNat_ofNatLt]
  · left; omega

theorem pyLowerChar_idem (c : Char) : pyLowerChar (pyLowerChar c) = pyLowerChar c := by
  unfold pyLowerChar
  by_cases h : 65 ≤ c.toNat ∧ c.toNat ≤ 90
  · rw [if_pos h]
    have ht : (Char.ofNat (c.toNat + 32)).toNat = c.toNat + 32 :=
      charOfNat_toNat_small _ (by omega) (by omega)
    rw [if_neg (by rw [ht]; omega)]
  · rw [if_neg h, if_neg h]

theorem pyLower_idem (s : String) : pyLower (pyLower s) = pyLower s := by
  unfold pyLower
  have hl : (String.mk (s.toList.map pyLowerChar)).toList = s.toList.map pyLowerChar := rfl
  rw [hl, List.map_map]
  apply congrArg
  exact List.map_congr_left (fun c _ => pyLowerChar_idem c)

/-! ### Totality on well-shaped Parameters sections, and the NoEcho
short-circuit of the pre-scan -/

theorem pre_scan_entries_ok (ps : Patterns) :
    ∀ (pes : List (String × Val)) (acc : List String),
      pes.all (fun e => match e.2 with | .dict _ => true | _ => false) = true →
      ∃ l, pre_scan_entries ps pes acc = .ok l := by
  intro pes
  induction pes with
  | nil => exact fun acc _ => ⟨acc, rfl⟩
  | cons e rest ih =>
    intro acc hall
    obtain ⟨k, v⟩ := e
    rw [List.all_cons, Bool.and_eq_true] at hall
    obtain ⟨hv, hrest⟩ := hall
    cases v <;> simp_all [pre_scan_entries]
    case dict pd =>
      split
      next => exact ih _
      next =>
        split
        next => exact ih _
        next =>
          split
          next =>
            split
            next => exact ih _
            next => exact ih _
          next => exact ih _

theorem sanitize_template_eq_ok (ps : Patterns) (t : Val) (pnames sens : List String)
    (h1 : parameter_names_of t = .ok pnames)
    (h2 : pre_scan_parameters ps t = .ok sens) :
    sanitize_template ps t = .ok (sanitize_node ps sens pnames t "" "" "") := by
  simp [sanitize_template, h1, h2]

theorem sanitize_template_ok (ps : Patterns) (t : Val)
    (h : paramsWellShaped t = true) : ∃ r, sanitize_template ps t = .ok r := by
  cases t
  case dict es =>
    simp only [paramsWellShaped] at h
    split at h
    next heq =>
      exact ⟨_, sanitize_template_eq_ok ps (.dict es) [] []
        (by simp [parameter_names_of, heq]) (by simp [pre_scan_parameters, heq])⟩
    next pes heq =>
      obtain ⟨l, hl⟩ := pre_scan_entries_ok ps pes [] h
      exact ⟨_, sanitize_template_eq_ok ps (.dict es) (pes.map (fun e => e.1)) l
        (by simp [parameter_names_of, heq]) (by simp [pre_scan_parameters, heq, hl])⟩
    next heq hne => simp at h
  all_goals simp [paramsWellShaped] at h

theorem pre_scan_entries_acc_sub (ps : Patterns) :
    ∀ (pes : List (String × Val)) (acc out : List String),
      pre_scan_entries ps pes acc = .ok out → acc ⊆ out := by
  intro pes
  induction pes with
  | nil =>
    intro acc out h
    simp only [pre_scan_entries] at h
    injection h with h2
    rw [h2]
    exact fun a ha => ha
  | cons e rest ih =>
    intro acc out h
    obtain ⟨k, v⟩ := e
    cases v <;> simp only [pre_scan_entries] at h
    case dict pd =>
      split at h
      next =>
        exact fun a ha => ih _ _ h (by simp [ha])
      next =>
        split at h
        next =>
          exact fun a ha => ih _ _ h (by simp [ha])
        next =>
          split at h
          next =>
            split at h
            next => exact fun a ha => ih _ _ h (by simp [ha])
            next => exact ih _ _ h
          next => exact ih _ _ h
    all_goals exact absurd h (by simp)

theorem pre_scan_entries_noecho_mem (ps : Patterns) :
    ∀ (pes : List (String × Val)) (acc out : List String),
      pre_scan_entries ps pes acc = .ok out →
      ∀ (name : String) (pd : List (String × Val)),
        (name, .dict pd) ∈ pes →
        pyTruthy (pyDictGet pd "NoEcho" (.bool false)) = true →
        name ∈ out := by
  intro pes
  induction pes with
  | nil => intro acc out _ name pd hmem; simp at hmem
  | cons e rest ih =>
    intro acc out h name pd hmem hecho
    rw [List.mem_cons] at hmem
    rcases hmem with hhead | htail
    · obtain ⟨k, v⟩ := e
      injection hhead with hk hv
      subst hk
      subst hv
      simp only [pre_scan_entries] at h
      rw [if_pos hecho] at h
      have hsub := pre_scan_entries_acc_sub ps rest _ _ h
      exact hsub (by simp)
    · obtain ⟨k, v⟩ := e
      cases v <;> simp only [pre_scan_entries] at h
      case dict pd2 =>
        split at h
        next => exact ih _ _ h name pd htail hecho
        next =>
          split at h
          next => exact ih _ _ h name pd htail hecho
          next =>
            split at h
            next =>
              split at h
              next => exact ih _ _ h name pd htail hecho
              next => exact ih _ _ h name pd htail hecho
            next => exact ih _ _ h name pd htail hecho
      all_goals exact absurd h (by simp)

/-! ### Claim-level theorems -/

/-- C4 counterexample: the claim asserts
`isSensitiveName("InstanceKeyName")` is true, but the heuristic's first
step fires: the lower-cased name contains the strong non-sensitive term
"name" (and that check `return False`s before the weak-vocabulary /
standalone-word logic the claim describes is ever reached). -/
theorem claim_C4_counterexample :
    is_sensitive_parameter_name "InstanceKeyName" = false := by decide

/-- C4 (amended): name-heuristic results on the four specification
examples — `DomainKeyName`, `InstanceKeyName` and `InstanceCount` are
not sensitive (the first two via the strong non-sensitive vocabulary,
the third via the weak vocabulary with no standalone sensitive word),
and `MasterPassword` is sensitive via the substring scan. -/
theorem claim_C4_theorem :
    is_sensitive_parameter_name "DomainKeyName" = false ∧
    is_sensitive_parameter_name "InstanceKeyName" = false ∧
    is_sensitive_parameter_name "InstanceCount" = false ∧
    is_sensitive_parameter_name "MasterPassword" = true := by decide

/-- C10: the name heuristic is case-insensitive — it agrees on a name
and on its lower-cased form, because every vocabulary check runs on the
lower-cased name and lower-casing is idempotent. -/
theorem claim_C10_theorem (n : String) :
    is_sensitive_parameter_name n = is_sensitive_parameter_name (pyLower n) := by
  unfold is_sensitive_parameter_name
  rw [pyLower_idem]

/-- C7: value-classifier negative boundaries — non-string inputs are
never sensitive, strings shorter than 8 characters are never sensitive,
and every string matching either AWS instance-type shape (of which
`m5.large` and `db.t3.micro` are instances) is never sensitive, all
regardless of the catalog contents. -/
theorem claim_C7_theorem (ps : Patterns) :
    (∀ v : Val, isStrVal v = false → is_sensitive_value ps v = false) ∧
    (∀ s : String, s.length < 8 → is_sensitive_value ps (.str s) = false) ∧
    (∀ s : String, (instanceTypeMatch s.toList || dbInstanceTypeMatch s.toList) = true →
      is_sensitive_value ps (.str s) = false) ∧
    instanceTypeMatch "m5.large".toList = true ∧
    dbInstanceTypeMatch "db.t3.micro".toList = true := by
  refine ⟨?_, ?_, ?_, by decide, by decide⟩
  · intro v hv
    cases v <;> simp_all [is_sensitive_value, isStrVal]
  · intro s hs
    show is_sensitive_value_str ps s = false
    unfold is_sensitive_value_str
    rw [if_pos hs]
  · intro s hinst
    show is_sensitive_value_str ps s = false
    unfold is_sensitive_value_str
    by_cases hlen : s.length < 8
    · rw [if_pos hlen]
    · rw [if_neg hlen, if_pos hinst]

/-- C7 witness: the boundaries evaluated at a non-string, at the
7-character `Secr3t!` (uppercase+digit+symbol but below the length
gate), and at the two instance-type strings, under the empty catalog. -/
theorem claim_C7_witness :
    is_sensitive_value [] (.int 7) = false ∧
    is_sensitive_value [] (.str "Secr3t!") = false ∧
    is_sensitive_value [] (.str "m5.large") = false ∧
    is_sensitive_value [] (.str "db.t3.micro") = false :=
  ⟨(claim_C7_theorem []).1 (.int 7) (by decide),
   (claim_C7_theorem []).2.1 "Secr3t!" (by decide),
   (claim_C7_theorem []).2.2.1 "m5.large" (by decide),
   (claim_C7_theorem []).2.2.1 "db.t3.micro" (by decide)⟩

/-- C8: parameter-default rule — for a parameter in the sensitivity set
whose non-whitespace string default matches the first catalog rule
`rn` (catalog order), the default becomes `SANITIZED-<RN>-VALUE`
(rule name upper-cased) with exactly one Finding carrying the rule name
and the verbatim original; non-string and whitespace-only defaults pass
through unchanged with no Finding. -/
theorem claim_C8_theorem (ps : Patterns) (sens : List String)
    (param_name s path rn : String)
    (hmem : sens.contains param_name = true)
    (hstrip : pyStripEmpty s = false)
    (hmatch : firstRegexMatch ps s = some rn) :
    sanitize_parameter_default ps sens param_name (.str s) path =
      (some (.str ("SANITIZED-" ++ pyUpper rn ++ "-VALUE")),
       [⟨path, rn, s⟩]) ∧
    (∀ v : Val, isStrVal v = false →
      sanitize_parameter_default ps sens param_name v path = (none, [])) ∧
    (∀ s2 : String, pyStripEmpty s2 = true →
      sanitize_parameter_default ps sens param_name (.str s2) path = (none, [])) := by
  refine ⟨?_, ?_, ?_⟩
  · simp only [sanitize_parameter_default]
    rw [if_neg (by simp [hstrip]), if_neg (by rw [hmem]; simp), hmatch]
  · intro v hv
    cases v <;> simp_all [sanitize_parameter_default, isStrVal]
  · intro s2 h2
    simp only [sanitize_parameter_default]
    rw [if_pos h2]

/-- C8 witness: a sensitive parameter with default `AKIA1234SECRET`
matching an `aws_key` rule becomes `SANITIZED-AWS_KEY-VALUE` with one
verbatim Finding; an integer default and a whitespace default pass
through with no Finding. -/
theorem claim_C8_witness :
    sanitize_parameter_default [("aws_key", ⟨some (fun s => pyInStr "AKIA" s), []⟩)]
      ["DBPassword"] "DBPassword" (.str "AKIA1234SECRET") "Parameters.DBPassword.Default" =
      (some (.str "SANITIZED-AWS_KEY-VALUE"),
       [⟨"Parameters.DBPassword.Default", "aws_key", "AKIA1234SECRET"⟩]) ∧
    sanitize_parameter_default [("aws_key", ⟨some (fun s => pyInStr "AKIA" s), []⟩)]
      ["DBPassword"] "DBPassword" (.int 3) "Parameters.DBPassword.Default" = (none, []) ∧
    sanitize_parameter_default [("aws_key", ⟨some (fun s => pyInStr "AKIA" s), []⟩)]
      ["DBPassword"] "DBPassword" (.str "  ") "Parameters.DBPassword.Default" = (none, []) := by
  have h := claim_C8_theorem [("aws_key", ⟨some (fun s => pyInStr "AKIA" s), []⟩)]
    ["DBPassword"] "DBPassword" "AKIA1234SECRET" "Parameters.DBPassword.Default" "aws_key"
    (by decide) (by decide) (by decide)
  exact ⟨h.1.trans (by rfl), h.2.1 (.int 3) (by decide), h.2.2 "  " (by decide)⟩

/-- C9: NoEcho short-circuit — any declared parameter whose definition
mapping carries a truthy `NoEcho` is in the pre-scan's sensitivity set,
for every name and every default value (neither is consulted). -/
theorem claim_C9_theorem (ps : Patterns) (es pes pd : List (String × Val))
    (name : String) (sens : List String)
    (hp : pyLookup es "Parameters" = some (.dict pes))
    (hmem : (name, Val.dict pd) ∈ pes)
    (hecho : pyTruthy (pyDictGet pd "NoEcho" (.bool false)) = true)
    (hok : pre_scan_parameters ps (.dict es) = .ok sens) :
    name ∈ sens := by
  simp only [pre_scan_parameters, hp] at hok
  exact pre_scan_entries_noecho_mem ps pes [] sens hok name pd hmem hecho

/-- C9 witness: a `NoEcho: true` parameter with a non-sensitive name
`P` and a plain default is in the sensitivity set, under the empty
catalog. -/
theorem claim_C9_witness :
    pre_scan_parameters []
      (.dict [("Parameters", .dict [("P", .dict [("NoEcho", .bool true), ("Default", .str "plain")])])]) =
      .ok ["P"] ∧ "P" ∈ ["P"] :=
  ⟨rfl,
   claim_C9_theorem [] [("Parameters", .dict [("P", .dict [("NoEcho", .bool true), ("Default", .str "plain")])])]
     [("P", .dict [("NoEcho", .bool true), ("Default", .str "plain")])]
     [("NoEcho", .bool true), ("Default", .str "plain")] "P" ["P"]
     rfl (by simp) (by decide) rfl⟩

/-- C5 counterexample: the claim asserts the engine never raises on the
shape of the input tree, but a template whose `Parameters` section is a
string makes the constructor's `template['Parameters'].keys()` raise
`AttributeError` before anything is sanitized. -/
theorem claim_C5_counterexample :
    sanitize_template [] (.dict [("Parameters", .str "x")]) =
      .error "AttributeError: object has no attribute keys" := rfl

/-- C5 (amended): shape-totality holds on mapping templates whose
`Parameters` entry, when present, is a mapping all of whose values are
mappings; on those, `sanitize_template` returns normally for every
catalog and every nesting elsewhere in the tree (unanticipated shapes
are walked or skipped, never raised on). -/
theorem claim_C5_theorem (ps : Patterns) (t : Val)
    (h : paramsWellShaped t = true) :
    ∃ r, sanitize_template ps t = .ok r :=
  sanitize_template_ok ps t h

/-- C5 witness: a template with an empty parameter definition and a
stray scalar section sanitizes without error. -/
theorem claim_C5_witness :
    paramsWellShaped (.dict [("Parameters", .dict [("P", .dict [])]), ("Other", .int 3)]) = true ∧
    ∃ r, sanitize_template [] (.dict [("Parameters", .dict [("P", .dict [])]), ("Other", .int 3)]) = .ok r :=
  ⟨rfl, claim_C5_theorem [] (.dict [("Parameters", .dict [("P", .dict [])]), ("Other", .int 3)]) rfl⟩

/-- C6 (amended): the LoginProfile block itself — for a `LoginProfile`
mapping value containing a string `Password`, with `rp` the first
catalog rule whose keys include `Password`, the block replaces the
nested password with the resolve placeholder and appends exactly one
Finding at the `.Password`-suffixed path whose `original` is the
placeholder itself (the post-substitution value).  In the Resources
section the subsequent recursion then re-redacts the placeholder and
appends a second identical-path Finding, so the full run records two
findings, not one (see the counterexample). -/
theorem claim_C6_theorem (ps : Patterns) (d : List (String × Val))
    (loc pw : String) (rp : String × PatternDef)
    (hpw : pyLookup d "Password" = some (.str pw))
    (hrule : ps.find? (fun p => p.2.keys.contains "Password") = some rp) :
    login_profile_step ps "LoginProfile" (.dict d) loc =
      (.dict (updateD d "Password" (.str (placeholderFor rp.1 "Password"))),
       [⟨loc ++ ".Password", rp.1, placeholderFor rp.1 "Password"⟩]) := by
  obtain ⟨rn, pdef⟩ := rp
  simp only [login_profile_step, hpw, hrule]
  simp

/-- C6 witness: the block applied to `Password: hunter2secret1` under a
catalog whose `iam_login` rule lists `Password`. -/
theorem claim_C6_witness :
    login_profile_step [("iam_login", ⟨none, ["Password"]⟩)] "LoginProfile"
      (.dict [("Password", .str "hunter2secret1")]) "Resources.R.LoginProfile" =
      (.dict [("Password", .str "\x7b\x7bresolve:secretsmanager:iam_login:SecretString:Password\x7d\x7d")],
       [⟨"Resources.R.LoginProfile.Password", "iam_login",
         "\x7b\x7bresolve:secretsmanager:iam_login:SecretString:Password\x7d\x7d"⟩]) := by
  have h := claim_C6_theorem [("iam_login", ⟨none, ["Password"]⟩)]
    [("Password", .str "hunter2secret1")] "Resources.R.LoginProfile" "hunter2secret1"
    ("iam_login", ⟨none, ["Password"]⟩) rfl rfl
  exact h.trans (by rfl)

/-- C6 counterexample: the claim's "exactly one Finding is appended"
fails on a full run — under Resources the recursion into the updated
LoginProfile mapping redacts the `Password` key again (key-trigger
rule), so the report holds two findings for the same path, both with
`original` equal to the placeholder. -/
theorem claim_C6_counterexample :
    sanitize_template loginPatterns loginTemplate = .ok
      (.dict [("Resources", .dict [("R", .dict [("LoginProfile",
         .dict [("Password", .str loginPlaceholder)])])])],
       [⟨"Resources.R.LoginProfile.Password", "iam_login", loginPlaceholder⟩,
        ⟨"Resources.R.LoginProfile.Password", "iam_login", loginPlaceholder⟩]) := by
  simp [sanitize_template, loginPatterns, loginTemplate, loginPlaceholder,
    parameter_names_of, pre_scan_parameters, pyLookup, sanitize_node, sanEntries,
    sanEntryValue, sanDescend, sanItems, inferSection, sanitize_property,
    sanPropStrLoop, login_profile_step, updateD, placeholderFor, pyInStr, subAt,
    STRING_SCAN_KEYS, regexSearch, is_sensitive_value_str, simpleToken]

/-- C3: the `general_credentials` in-place substring substitution never
happens.  At a Description matching the rule's regex, the generic
regex branch (which runs first for the scanned keys and subsumes the
special case, leaving it dead code) replaces the whole value with the
resolve placeholder; the marker text `SANITIZED-CREDENTIAL` appears
nowhere in the output, and even the dead branch would substitute every
match by itself (`re.sub` template `\g<0>`), not by the marker. -/
theorem claim_C3_theorem :
    sanitize_property gcPatterns "Description"
      (.str "Admin password=hunter2 for the box")
      "Resources.R.Properties.Description" "Resources" =
      (some (.str (placeholderFor "general_credentials" "Description")),
       [⟨"Resources.R.Properties.Description", "general_credentials",
         "Admin password=hunter2 for the box"⟩]) ∧
    pyInStr "SANITIZED-CREDENTIAL" (placeholderFor "general_credentials" "Description") = false := by
  exact ⟨rfl, rfl⟩

/-- C1 (amended): the rewrite is a pure function of the catalog and the
tree, and any tree whose rewrite produces no Findings is a fixed point:
the tree is returned unchanged and a second run returns the same tree
with no Findings.  (Unrestricted idempotence fails, see the
counterexample: placeholders are re-matched by key-trigger rules and
re-tagged by the Passwords fallback.) -/
theorem claim_C1_theorem (ps : Patterns) (t t1 : Val)
    (h : sanitize_template ps t = .ok (t1, [])) :
    t1 = t ∧ sanitize_template ps t1 = .ok (t1, []) := by
  have heq : t1 = t := sanitize_template_no_findings ps t (t1, []) h rfl
  subst heq
  exact ⟨rfl, h⟩

/-- C1 witness: a template the empty catalog leaves untouched is a
fixed point of the rewrite. -/
theorem claim_C1_witness :
    sanitize_template [] (.dict [("Description", .str "hello")]) =
      .ok (.dict [("Description", .str "hello")], []) ∧
    (Val.dict [("Description", .str "hello")]) = .dict [("Description", .str "hello")] := by
  have h : sanitize_template [] (.dict [("Description", .str "hello")]) =
      .ok (.dict [("Description", .str "hello")], []) := by
    simp [sanitize_template, parameter_names_of, pre_scan_parameters, pyLookup,
      sanitize_node, sanEntries, sanEntryValue, sanDescend, sanItems, inferSection,
      sanitize_property, sanPropStrLoop, login_profile_step, pyInStr, subAt]
  exact ⟨(claim_C1_theorem [] _ _ h).2, (claim_C1_theorem [] _ _ h).1⟩

/-- C1 counterexample: idempotence fails in both conjuncts.  A
`Passwords` element matching `pw_rule` becomes
`SANITIZED-PW_RULE-VALUE-0`; the second run re-redacts that placeholder
(no regex matches it, so the `generic_secret` fallback applies),
producing a different tree and a non-empty second Finding sequence. -/
theorem claim_C1_counterexample :
    sanitize_template pwPatterns pwTemplate =
      .ok (pwTemplate1, [⟨"Resources.R.Passwords[0]", "pw_rule", "topsecret1"⟩]) ∧
    sanitize_template pwPatterns pwTemplate1 =
      .ok (pwTemplate2,
        [⟨"Resources.R.Passwords[0]", "generic_secret", "SANITIZED-PW_RULE-VALUE-0"⟩]) ∧
    pwTemplate2 ≠ pwTemplate1 := by
  refine ⟨?_, ?_, ?_⟩
  · simp [sanitize_template, pwPatterns, pwTemplate, pwTemplate1, parameter_names_of,
      pre_scan_parameters, pyLookup, sanitize_node, sanEntries, sanEntryValue,
      sanDescend, sanItems, inferSection, sanitize_property, sanPropStrLoop,
      sanPasswordsList, login_profile_step, pyInStr, subAt, STRING_SCAN_KEYS,
      regexSearch, is_sensitive_value_str, simpleToken, isStrVal, placeholderFor,
      firstRegexMatch, pyUpper, pyUpperChar]
    exact ⟨rfl, rfl⟩
  · simp [sanitize_template, pwPatterns, pwTemplate1, pwTemplate2, parameter_names_of,
      pre_scan_parameters, pyLookup, sanitize_node, sanEntries, sanEntryValue,
      sanDescend, sanItems, inferSection, sanitize_property, sanPropStrLoop,
      sanPasswordsList, login_profile_step, pyInStr, subAt, STRING_SCAN_KEYS,
      regexSearch, is_sensitive_value_str, simpleToken, isStrVal, placeholderFor,
      firstRegexMatch, pyUpper, pyUpperChar]
    exact ⟨rfl, rfl⟩
  · simp [pwTemplate1, pwTemplate2]

/-- C2 counterexample: a Finding with no corresponding in-place change
(and not the LoginProfile case) — a NoEcho parameter whose default
already equals `SANITIZED-PARAMETER-VALUE` is "replaced" by the same
string, the output tree equals the input, yet one `parameter_defaults`
Finding is recorded. -/
theorem claim_C2_counterexample :
    sanitize_template [] qTemplate = .ok (qTemplate,
      [⟨"Parameters.Q.Default", "parameter_defaults", "SANITIZED-PARAMETER-VALUE"⟩]) := by
  simp [sanitize_template, qTemplate, parameter_names_of, pre_scan_parameters,
    pre_scan_entries, pyLookup, pyDictGet, pyTruthy, sanitize_node, sanEntries,
    sanEntryValue, sanDescend, sanItems, inferSection, sanitize_property,
    sanPropStrLoop, sanitize_parameter_default, firstRegexMatch, login_profile_step,
    pyInStr, subAt, pyStripEmpty, pyIsSpace, is_sensitive_value_str,
    is_sensitive_parameter_name]

/-- C2 (amended): findings may be recorded without a value change, but
there is no silent replacement — a run that changes the tree records at
least one Finding (equivalently, an empty report means the tree is
unchanged). -/
theorem claim_C2_theorem (ps : Patterns) (t : Val) (r : Val × List Finding)
    (h : sanitize_template ps t = .ok r) (hne : r.1 ≠ t) : r.2 ≠ [] := by
  intro hf
  exact hne (sanitize_template_no_findings ps t r h hf)

/-- C2 witness: a key-triggered Password redaction changes the tree and
records a Finding. -/
theorem claim_C2_witness :
    sanitize_template pwKeyPatterns pwKeyTemplate = .ok (pwKeyTemplateOut,
      [⟨"Resources.R.Password", "pw", "hunter2hunter2"⟩]) ∧
    pwKeyTemplateOut ≠ pwKeyTemplate ∧
    ([⟨"Resources.R.Password", "pw", "hunter2hunter2"⟩] : List Finding) ≠ [] := by
  have h : sanitize_template pwKeyPatterns pwKeyTemplate = .ok (pwKeyTemplateOut,
      [⟨"Resources.R.Password", "pw", "hunter2hunter2"⟩]) := by
    simp [sanitize_template, pwKeyPatterns, pwKeyTemplate, pwKeyTemplateOut,
      parameter_names_of, pre_scan_parameters, pyLookup, sanitize_node, sanEntries,
      sanEntryValue, sanDescend, sanItems, inferSection, sanitize_property,
      sanPropStrLoop, login_profile_step, pyInStr, subAt, STRING_SCAN_KEYS,
      regexSearch, is_sensitive_value_str, simpleToken, placeholderFor]
  have hne : pwKeyTemplateOut ≠ pwKeyTemplate := by
    simp [pwKeyTemplateOut, pwKeyTemplate]
  exact ⟨h, hne, claim_C2_theorem pwKeyPatterns pwKeyTemplate _ h hne⟩
